import Mathlib

/-!
Verification of the `airem` transaction orchestrator (`src/txn.ts`).

The model is a shallow embedding of `Transaction.run`:

* Contexts live in an arbitrary type `V`; the JS `undefined` initial context
  is the explicit argument `undef` of `Transaction.run`.
* Errors live in an arbitrary type `E`.
* Every fallible callback (step action, observers, rollbacks) is modelled as a
  function returning `Except E _`; a step action additionally receives the
  zero-based attempt index of the retry loop, modelling a stateful closure
  whose behaviour may differ between invocations (`execute(context)` is called
  with the same context on every attempt).
* `run` returns, besides the `Except`-result the caller observes, a trace of
  events marking the points where the code invokes observers, the action,
  `setTimeout`, and the rollback handlers, with the exact arguments passed.
-/

deriving instance DecidableEq for Except

namespace Airem

/-- Trace events.  Each constructor marks a source location of `txn.ts` being
reached, carrying the arguments the code passes there:
`start` = the `onStart` call site, `execCall` = `execute(context)`,
`success` = the `onSuccess` call site, `errorEv` = the `onError` call site,
`wait` = the `setTimeout` delay, `stepRollback` / `globalRollback` = the
rollback invocations, and the `Failed` variants record a rollback handler
throwing (the `console.warn` branches). -/
inductive Event (V E : Type) where
  | start (step : String) (ctx : V)
  | execCall (step : String) (ctx : V)
  | success (step : String) (ctx : V) (result : V)
  | errorEv (step : String) (ctx : V) (err : E)
  | wait (ms : Nat)
  | stepRollback (step : String) (ctx : V) (err : E)
  | stepRollbackFailed (step : String) (err : E)
  | globalRollback (step : String) (ctx : V) (err : E)
  | globalRollbackFailed (step : String) (err : E)
deriving DecidableEq, Repr

/-- Retry configuration: `retry?: { attempts: number; delayMs: number }`. -/
structure Retry where
  attempts : Nat
  delayMs : Nat
deriving DecidableEq, Repr

/-- A transaction step (`interface TransactionStep`): a name, a fallible
action (given the attempt index and the context), an optional rollback and an
optional retry policy. -/
structure TransactionStep (V E : Type) where
  name : String
  execute : Nat → V → Except E V
  rollback : Option (V → E → Except E Unit) := none
  retry : Option Retry := none

/-- The step event handlers (`interface StepEvents`).  Each is optional;
`none` models an absent handler (the `?.` call is a no-op). -/
structure StepEvents (V E : Type) where
  onStart : Option (String → V → Except E Unit) := none
  onSuccess : Option (String → V → V → Except E Unit) := none
  onError : Option (String → V → E → Except E Unit) := none

/-- The transaction: its ordered task list, the global rollback handler and
the step event handlers (`class Transaction`; the logger is observability
only and not modelled). -/
structure Transaction (V E : Type) where
  tasks : List (TransactionStep V E) := []
  globalRollback : Option (V → E → Except E Unit) := none
  stepEvents : StepEvents V E := {}

/-- `step()`: appends one step, returns the transaction for chaining. -/
def Transaction.step {V E : Type} (t : Transaction V E) (s : TransactionStep V E) :
    Transaction V E :=
  { t with tasks := t.tasks ++ [s] }

/-- `steps()`: appends a list of steps in order. -/
def Transaction.steps {V E : Type} (t : Transaction V E) (ss : List (TransactionStep V E)) :
    Transaction V E :=
  { t with tasks := t.tasks ++ ss }

/-- `onStep()`: replaces the observer set and the global rollback handler. -/
def Transaction.onStep {V E : Type} (t : Transaction V E) (ev : StepEvents V E)
    (rb : Option (V → E → Except E Unit)) : Transaction V E :=
  { t with stepEvents := ev, globalRollback := rb }

/-- `await this.stepEvents.onStart?.(name, context)`. -/
def callOnStart {V E : Type} (f : Option (String → V → Except E Unit)) (n : String)
    (c : V) : Except E Unit :=
  match f with
  | none => Except.ok ()
  | some g => g n c

/-- `await this.stepEvents.onSuccess?.(name, context, result)`. -/
def callOnSuccess {V E : Type} (f : Option (String → V → V → Except E Unit)) (n : String)
    (c r : V) : Except E Unit :=
  match f with
  | none => Except.ok ()
  | some g => g n c r

/-- `await this.stepEvents.onError?.(name, context, lastError)`. -/
def callOnError {V E : Type} (f : Option (String → V → E → Except E Unit)) (n : String)
    (c : V) (e : E) : Except E Unit :=
  match f with
  | none => Except.ok ()
  | some g => g n c e

/-- The JS truthiness test `retry?.delayMs` reads this value; it is truthy
iff nonzero (and iff the retry object exists). -/
def retryDelay (r : Option Retry) : Nat :=
  match r with
  | none => 0
  | some r => r.delayMs

/-- `let attempts = retry?.attempts ?? 1`. -/
def attemptsOf {V E : Type} (s : TransactionStep V E) : Nat :=
  match s.retry with
  | none => 1
  | some r => r.attempts

/-- Outcome of the `while (attempts > 0)` retry loop of one step:
`success result` — the `break` after pushing the history entry;
`thrown e` — the `throw error` (or an observer inside the loop throwing);
`exhausted` — the loop condition was false at entry (only possible when the
configured attempt budget is `0`), so the `for` loop moves on with the
context unchanged and nothing pushed. -/
inductive LoopOutcome (V E : Type) where
  | success (result : V)
  | thrown (e : E)
  | exhausted
deriving DecidableEq, Repr

/-- The retry loop of `run` (lines 110–136 of `txn.ts`), as a function of the
remaining attempt budget.  `idx` is the zero-based attempt index passed to the
action.  On a caught failure the code decrements `attempts` and retries only
when attempts remain *and* `retry?.delayMs` is truthy; otherwise it reaches
the `onError` call site and rethrows (an `onError` throw replaces the error
that propagates, since it is raised before the `throw error` statement).
Note that an `onSuccess` throw is caught by the same `catch` and is treated
exactly like a failed attempt. -/
def retryLoop {V E : Type} (onSucc : Option (String → V → V → Except E Unit))
    (onErr : Option (String → V → E → Except E Unit)) (name : String)
    (execute : Nat → V → Except E V) (retr : Option Retry) (ctx : V) :
    Nat → Nat → List (Event V E) × LoopOutcome V E
  | _, 0 => ([], LoopOutcome.exhausted)
  | idx, rest + 1 =>
    let afterFail (e : E) (pre : List (Event V E)) :
        List (Event V E) × LoopOutcome V E :=
      if rest > 0 ∧ retryDelay retr ≠ 0 then
        let next := retryLoop onSucc onErr name execute retr ctx (idx + 1) rest
        (pre ++ Event.wait (retryDelay retr) :: next.1, next.2)
      else
        match callOnError onErr name ctx e with
        | Except.ok _ => (pre ++ [Event.errorEv name ctx e], LoopOutcome.thrown e)
        | Except.error e2 => (pre ++ [Event.errorEv name ctx e], LoopOutcome.thrown e2)
    match execute idx ctx with
    | Except.ok result =>
      match callOnSuccess onSucc name ctx result with
      | Except.ok _ =>
        ([Event.execCall name ctx, Event.success name ctx result],
         LoopOutcome.success result)
      | Except.error e =>
        afterFail e [Event.execCall name ctx, Event.success name ctx result]
    | Except.error e => afterFail e [Event.execCall name ctx]

/-- Result of the forward pass: the trace, the `contexts` array (history of
`{step, ctx}` records in push order) and the outcome. -/
structure ForwardResult (V E : Type) where
  trace : List (Event V E)
  history : List (String × V)
  result : Except E V

/-- The `for (const {name, execute, retry} of this.tasks)` loop of `run`
(lines 105–139): invoke `onStart` (a throw there propagates to the outer
`catch`), run the retry loop, and on success push `{step: name, ctx}` — the
*pre-execution* context — and continue with `context = result`. -/
def runSteps {V E : Type} (ev : StepEvents V E) :
    List (TransactionStep V E) → V → List (String × V) → ForwardResult V E
  | [], ctx, hist => ⟨[], hist, Except.ok ctx⟩
  | s :: rest, ctx, hist =>
    match callOnStart ev.onStart s.name ctx with
    | Except.error e => ⟨[Event.start s.name ctx], hist, Except.error e⟩
    | Except.ok _ =>
      match retryLoop ev.onSuccess ev.onError s.name s.execute s.retry ctx 0
          (attemptsOf s) with
      | (tr, LoopOutcome.success result) =>
        let k := runSteps ev rest result (hist ++ [(s.name, ctx)])
        ⟨Event.start s.name ctx :: tr ++ k.trace, k.history, k.result⟩
      | (tr, LoopOutcome.thrown e) =>
        ⟨Event.start s.name ctx :: tr, hist, Except.error e⟩
      | (tr, LoopOutcome.exhausted) =>
        let k := runSteps ev rest ctx hist
        ⟨Event.start s.name ctx :: tr ++ k.trace, k.history, k.result⟩

/-- The rollback-handler lookup of the rollback loop:
`this.tasks.find((s) => s.name === step)` (first match by name), then its
optional `rollback` field. -/
def stepRollbackOf {V E : Type} (tasks : List (TransactionStep V E))
    (n : String) : Option (V → E → Except E Unit) :=
  (tasks.find? (fun s => s.name == n)).bind (fun s => s.rollback)

/-- Rollback of one history record (lines 144–174): look up the step
definition by `find` (first match by name); if it declares a rollback, invoke
it with the recorded context and the triggering error, catching any throw;
then, if a global rollback handler is set, invoke it unconditionally with the
same pair, likewise catching any throw. -/
def rollbackOne {V E : Type} (tasks : List (TransactionStep V E))
    (gr : Option (V → E → Except E Unit)) (e : E) (p : String × V) :
    List (Event V E) :=
  (match stepRollbackOf tasks p.1 with
   | none => []
   | some rb =>
     match rb p.2 e with
     | Except.ok _ => [Event.stepRollback p.1 p.2 e]
     | Except.error e2 =>
       [Event.stepRollback p.1 p.2 e, Event.stepRollbackFailed p.1 e2]) ++
  (match gr with
   | none => []
   | some g =>
     match g p.2 e with
     | Except.ok _ => [Event.globalRollback p.1 p.2 e]
     | Except.error e2 =>
       [Event.globalRollback p.1 p.2 e, Event.globalRollbackFailed p.1 e2])

/-- The rollback loop (`for (let i = contexts.length - 1; i >= 0; i--)`):
every history record is processed, from the last pushed to the first. -/
def rollbackAll {V E : Type} (tasks : List (TransactionStep V E))
    (gr : Option (V → E → Except E Unit)) (e : E)
    (hist : List (String × V)) : List (Event V E) :=
  (hist.reverse.map (rollbackOne tasks gr e)).flatten

/-- What `run()` yields: the event trace and the promise outcome. -/
structure RunResult (V E : Type) where
  trace : List (Event V E)
  result : Except E V

/-- The forward pass of `run`, started from the initial context (`undef`
models the JS `undefined` that `context` is initialised to). -/
def forwardRun {V E : Type} (t : Transaction V E) (undef : V) : ForwardResult V E :=
  runSteps t.stepEvents t.tasks undef []

/-- `Transaction.run` (lines 100–178): run the forward pass; on success
return the final context, on a throw run the rollback loop over the recorded
history and rethrow the original error. -/
def Transaction.run {V E : Type} (t : Transaction V E) (undef : V) : RunResult V E :=
  match forwardRun t undef with
  | ⟨tr, _, Except.ok c⟩ => ⟨tr, Except.ok c⟩
  | ⟨tr, hist, Except.error e⟩ =>
    ⟨tr ++ rollbackAll t.tasks t.globalRollback e hist, Except.error e⟩

/-- The rollback-handler *invocation* events of a trace (the points where a
step-specific or global rollback is actually called, with its arguments). -/
def compEvents {V E : Type} : List (Event V E) → List (Event V E)
  | [] => []
  | ev :: tr =>
    match ev with
    | Event.stepRollback n c e => Event.stepRollback n c e :: compEvents tr
    | Event.globalRollback n c e => Event.globalRollback n c e :: compEvents tr
    | _ => compEvents tr

/-- The observer events `onStart`/`onSuccess` of a trace, in order. -/
def obsEvents {V E : Type} : List (Event V E) → List (Event V E)
  | [] => []
  | ev :: tr =>
    match ev with
    | Event.start n c => Event.start n c :: obsEvents tr
    | Event.success n c r => Event.success n c r :: obsEvents tr
    | _ => obsEvents tr

/-- The `onError` call-site events of a trace. -/
def errEvents {V E : Type} : List (Event V E) → List (Event V E)
  | [] => []
  | ev :: tr =>
    match ev with
    | Event.errorEv n c e => Event.errorEv n c e :: errEvents tr
    | _ => errEvents tr

/-- The action-invocation events of a trace. -/
def execEvents {V E : Type} : List (Event V E) → List (Event V E)
  | [] => []
  | ev :: tr =>
    match ev with
    | Event.execCall n c => Event.execCall n c :: execEvents tr
    | _ => execEvents tr

/-- The `setTimeout` wait events of a trace. -/
def waitEvents {V E : Type} : List (Event V E) → List (Event V E)
  | [] => []
  | ev :: tr =>
    match ev with
    | Event.wait ms => Event.wait ms :: waitEvents tr
    | _ => waitEvents tr

/-- The step name a rollback-invocation event refers to, if any. -/
def rollbackStepName {V E : Type} : Event V E → Option String
  | Event.stepRollback n _ _ => some n
  | Event.globalRollback n _ _ => some n
  | _ => none

/-- Modelled from the spec's rollback protocol (§4.2 / §8): the rollback
invocations expected for one history record — the step-specific compensation
of the first-match-by-name definition first, when declared, then the global
compensation, when set, unconditionally, both receiving the recorded
pre-step context and the triggering error.  Compared against the trace the
code actually produces. -/
def invBlock {V E : Type} (tasks : List (TransactionStep V E))
    (gr : Option (V → E → Except E Unit)) (e : E) (p : String × V) :
    List (Event V E) :=
  (match stepRollbackOf tasks p.1 with
   | none => []
   | some _ => [Event.stepRollback p.1 p.2 e]) ++
  (match gr with
   | none => []
   | some _ => [Event.globalRollback p.1 p.2 e])

/-- `RunsOk ev c pre hist c'` says: executed from context `c`, every step of
`pre` completes successfully (its `onStart` call returns, and its retry loop
ends in `LoopOutcome.success`), producing the history records `hist` (each
step paired with its pre-execution context) and handing the context `c'` to
whatever follows. -/
inductive RunsOk {V E : Type} (ev : StepEvents V E) : V → List (TransactionStep V E) →
    List (String × V) → V → Prop where
  | nil (c : V) : RunsOk ev c [] [] c
  | cons (s : TransactionStep V E) (c c' c'' : V)
      (rest : List (TransactionStep V E)) (hist : List (String × V))
      (tr : List (Event V E)) :
      callOnStart ev.onStart s.name c = Except.ok () →
      retryLoop ev.onSuccess ev.onError s.name s.execute s.retry c 0
        (attemptsOf s) = (tr, LoopOutcome.success c') →
      RunsOk ev c' rest hist c'' →
      RunsOk ev c (s :: rest) ((s.name, c) :: hist) c''

/-- The transaction of the C8 counterexample: one step whose action returns
the attempt index, retried up to 2 attempts with a 1ms delay, and an
`onSuccess` observer that throws on the first attempt's result only. -/
def obsRetryTxn : Transaction Nat Nat :=
  { tasks := [{ name := "S", execute := fun i _ => Except.ok i,
                retry := some ⟨2, 1⟩ }],
    stepEvents :=
      { onSuccess :=
          some (fun _ _ r => if r = 0 then Except.error 7 else Except.ok ()) } }

end Airem

namespace Airem

/-! Helper lemmas about the trace extractors and the rollback loop. -/

theorem compEvents_append {V E : Type} (l1 l2 : List (Event V E)) :
    compEvents (l1 ++ l2) = compEvents l1 ++ compEvents l2 := by
  induction l1 with
  | nil => rfl
  | cons ev tr ih => cases ev <;> simp [compEvents, ih]

theorem compEvents_retryLoop {V E : Type}
    (onSucc : Option (String → V → V → Except E Unit))
    (onErr : Option (String → V → E → Except E Unit)) (name : String)
    (execute : Nat → V → Except E V) (retr : Option Retry) (ctx : V)
    (attempts idx : Nat) :
    compEvents (retryLoop onSucc onErr name execute retr ctx idx attempts).1
      = [] := by
  induction attempts generalizing idx with
  | zero => rfl
  | succ rest ih =>
    cases hex : execute idx ctx with
    | ok result =>
      cases hsu : callOnSuccess onSucc name ctx result with
      | ok u => simp [retryLoop, hex, hsu, compEvents]
      | error e =>
        by_cases hc : rest > 0 ∧ retryDelay retr ≠ 0
        · simp [retryLoop, hex, hsu, hc, compEvents, compEvents_append, ih]
        · cases hoe : callOnError onErr name ctx e <;>
            simp [retryLoop, hex, hsu, hc, hoe, compEvents, compEvents_append]
    | error e =>
      by_cases hc : rest > 0 ∧ retryDelay retr ≠ 0
      · simp [retryLoop, hex, hc, compEvents, compEvents_append, ih]
      · cases hoe : callOnError onErr name ctx e <;>
          simp [retryLoop, hex, hc, hoe, compEvents, compEvents_append]

theorem compEvents_runSteps {V E : Type} (ev : StepEvents V E)
    (tasks : List (TransactionStep V E)) :
    ∀ (ctx : V) (hist : List (String × V)),
      compEvents (runSteps ev tasks ctx hist).trace = [] := by
  induction tasks with
  | nil => intro ctx hist; rfl
  | cons s rest ih =>
    intro ctx hist
    cases hst : callOnStart ev.onStart s.name ctx with
    | error e => simp [runSteps, hst, compEvents]
    | ok u =>
      rcases hrl : retryLoop ev.onSuccess ev.onError s.name s.execute s.retry
          ctx 0 (attemptsOf s) with ⟨tr, out⟩
      have htr : compEvents tr = [] := by
        have h := compEvents_retryLoop ev.onSuccess ev.onError s.name s.execute
          s.retry ctx (attemptsOf s) 0
        rw [hrl] at h
        exact h
      cases out <;>
        simp [runSteps, hst, hrl, compEvents, compEvents_append, htr, ih]

theorem compEvents_rollbackOne {V E : Type}
    (tasks : List (TransactionStep V E))
    (gr : Option (V → E → Except E Unit)) (e : E) (p : String × V) :
    compEvents (rollbackOne tasks gr e p) = invBlock tasks gr e p := by
  cases hs : stepRollbackOf tasks p.1 with
  | none =>
    cases gr with
    | none => simp [rollbackOne, invBlock, hs, compEvents]
    | some g =>
      cases hg : g p.2 e <;>
        simp [rollbackOne, invBlock, hs, hg, compEvents, compEvents_append]
  | some rb =>
    cases hrb : rb p.2 e with
    | ok u =>
      cases gr with
      | none => simp [rollbackOne, invBlock, hs, hrb, compEvents, compEvents_append]
      | some g =>
        cases hg : g p.2 e <;>
          simp [rollbackOne, invBlock, hs, hrb, hg, compEvents, compEvents_append]
    | error e2 =>
      cases gr with
      | none => simp [rollbackOne, invBlock, hs, hrb, compEvents, compEvents_append]
      | some g =>
        cases hg : g p.2 e <;>
          simp [rollbackOne, invBlock, hs, hrb, hg, compEvents, compEvents_append]

theorem compEvents_rollbackAll {V E : Type}
    (tasks : List (TransactionStep V E))
    (gr : Option (V → E → Except E Unit)) (e : E)
    (hist : List (String × V)) :
    compEvents (rollbackAll tasks gr e hist)
      = (hist.reverse.map (invBlock tasks gr e)).flatten := by
  unfold rollbackAll
  generalize hist.reverse = l
  induction l with
  | nil => rfl
  | cons p l ih =>
    simp [List.map_cons, compEvents_append, compEvents_rollbackOne, ih]

theorem run_error {V E : Type} (t : Transaction V E) (undef : V) (e : E)
    (h : (forwardRun t undef).result = Except.error e) :
    t.run undef =
      ⟨(forwardRun t undef).trace ++
        rollbackAll t.tasks t.globalRollback e (forwardRun t undef).history,
       Except.error e⟩ := by
  rcases hfr : forwardRun t undef with ⟨tr, hist, res⟩
  rw [hfr] at h
  simp only at h
  subst h
  simp [Transaction.run, hfr]

end Airem

namespace Airem

theorem runsOk_names {V E : Type} {ev : StepEvents V E} {c c' : V}
    {pre : List (TransactionStep V E)} {hist : List (String × V)}
    (h : RunsOk ev c pre hist c') :
    hist.map Prod.fst = pre.map (fun s => s.name) := by
  induction h with
  | nil c => rfl
  | cons s c c' c'' rest hist tr h1 h2 h3 ih => simp [ih]

theorem runSteps_prefix {V E : Type} {ev : StepEvents V E} {c c' : V}
    {pre : List (TransactionStep V E)} {hist : List (String × V)}
    (h : RunsOk ev c pre hist c') (rest : List (TransactionStep V E)) :
    ∀ h0 : List (String × V),
      (runSteps ev (pre ++ rest) c h0).history
        = (runSteps ev rest c' (h0 ++ hist)).history ∧
      (runSteps ev (pre ++ rest) c h0).result
        = (runSteps ev rest c' (h0 ++ hist)).result := by
  induction h with
  | nil c => intro h0; simp
  | cons s c c' c'' rest' hist' tr h1 h2 h3 ih =>
    intro h0
    have step : runSteps ev ((s :: rest') ++ rest) c h0
        = ⟨Event.start s.name c :: tr ++
            (runSteps ev (rest' ++ rest) c' (h0 ++ [(s.name, c)])).trace,
           (runSteps ev (rest' ++ rest) c' (h0 ++ [(s.name, c)])).history,
           (runSteps ev (rest' ++ rest) c' (h0 ++ [(s.name, c)])).result⟩ := by
      simp [runSteps, h1, h2]
    rcases ih (h0 ++ [(s.name, c)]) with ⟨ihh, ihr⟩
    rw [step]
    constructor
    · rw [ihh]; simp
    · rw [ihr]; simp

theorem invBlock_name {V E : Type} (tasks : List (TransactionStep V E))
    (gr : Option (V → E → Except E Unit)) (e : E) (p : String × V) :
    ∀ ev ∈ invBlock tasks gr e p, rollbackStepName ev = some p.1 := by
  intro ev hev
  unfold invBlock at hev
  rcases List.mem_append.1 hev with h | h
  · cases hs : stepRollbackOf tasks p.1 <;> rw [hs] at h <;> simp at h
    subst h; rfl
  · cases gr <;> simp at h
    subst h; rfl

theorem mem_rollbackAll_step {V E : Type} {tasks : List (TransactionStep V E)}
    {gr : Option (V → E → Except E Unit)} {e : E}
    {hist : List (String × V)} {p : String × V} (hp : p ∈ hist)
    {rb : V → E → Except E Unit}
    (hrb : stepRollbackOf tasks p.1 = some rb) :
    Event.stepRollback p.1 p.2 e ∈ rollbackAll tasks gr e hist := by
  have hp' : p ∈ hist.reverse := List.mem_reverse.2 hp
  unfold rollbackAll
  rw [List.mem_flatten]
  refine ⟨rollbackOne tasks gr e p, List.mem_map_of_mem _ hp', ?_⟩
  unfold rollbackOne
  rw [hrb]
  cases hr : rb p.2 e <;> simp [hr]

theorem mem_rollbackAll_global {V E : Type} {tasks : List (TransactionStep V E)}
    {g : V → E → Except E Unit} {e : E}
    {hist : List (String × V)} {p : String × V} (hp : p ∈ hist) :
    Event.globalRollback p.1 p.2 e ∈ rollbackAll tasks (some g) e hist := by
  have hp' : p ∈ hist.reverse := List.mem_reverse.2 hp
  unfold rollbackAll
  rw [List.mem_flatten]
  refine ⟨rollbackOne tasks (some g) e p, List.mem_map_of_mem _ hp', ?_⟩
  unfold rollbackOne
  cases hs : stepRollbackOf tasks p.1 with
  | none => cases hg : g p.2 e <;> simp [hg]
  | some rb => cases hr : rb p.2 e <;> cases hg : g p.2 e <;> simp [hr, hg]

end Airem

namespace Airem

/-- C3, as stated, is false on the code: a step with `retry = {attempts: 2,
delayMs: 0}` — attempts remaining after the first failure, but no (truthy)
delay configured — has its action invoked exactly once; the error is raised
immediately instead of the claimed immediate retry (whose second invocation
would have succeeded here and made the run return `Except.ok 9`). -/
theorem c3_counterexample :
    (Transaction.run
      { tasks := [{ name := "S",
                    execute := fun i _ =>
                      if i = 0 then Except.error 5 else Except.ok 9,
                    retry := some ⟨2, 0⟩ }] } (0 : Nat)).result
      = Except.error 5 ∧
    execEvents (Transaction.run
      { tasks := [{ name := "S",
                    execute := fun i _ =>
                      if i = 0 then Except.error 5 else Except.ok 9,
                    retry := some ⟨2, 0⟩ }] } (0 : Nat)).trace
      = [Event.execCall "S" 0] := by
  constructor <;> rfl

/-- C3 (amended): when the retry policy configures a zero delay, a failed
first attempt is never retried, no matter how many attempts remain: the
action is invoked exactly once and its error is raised at once — the truthy
delay is what gates whether a retry happens at all. -/
theorem c3_zero_delay_never_retries {V E : Type} (n : String)
    (f : Nat → V → Except E V) (rb : Option (V → E → Except E Unit))
    (k : Nat) (undef : V) (e : E)
    (hf : f 0 undef = Except.error e) :
    (Transaction.run { tasks := [{ name := n, execute := f,
                                   rollback := rb,
                                   retry := some ⟨k + 1, 0⟩ }] } undef).result
      = Except.error e ∧
    execEvents (Transaction.run { tasks := [{ name := n, execute := f,
                                              rollback := rb,
                                              retry := some ⟨k + 1, 0⟩ }] }
        undef).trace
      = [Event.execCall n undef] := by
  simp [Transaction.run, forwardRun, runSteps, retryLoop, attemptsOf,
    retryDelay, callOnStart, callOnSuccess, callOnError, rollbackAll, hf,
    execEvents]

/-- Witness for `c3_zero_delay_never_retries` at a concrete input. -/
theorem c3_zero_delay_never_retries_witness :
    (fun (i : Nat) (_ : Nat) =>
      if i = 0 then (Except.error 5 : Except Nat Nat) else Except.ok 9) 0 0
      = Except.error 5 ∧
    ((Transaction.run { tasks := [{ name := "S",
                                    execute := fun (i : Nat) (_ : Nat) =>
                                      if i = 0 then
                                        (Except.error 5 : Except Nat Nat)
                                      else Except.ok 9,
                                    rollback := none,
                                    retry := some ⟨1 + 1, 0⟩ }] }
        (0 : Nat)).result
        = Except.error 5 ∧
     execEvents (Transaction.run { tasks := [{ name := "S",
                                               execute :=
                                                 fun (i : Nat) (_ : Nat) =>
                                                   if i = 0 then
                                                     (Except.error 5 :
                                                       Except Nat Nat)
                                                   else Except.ok 9,
                                               rollback := none,
                                               retry := some ⟨1 + 1, 0⟩ }] }
        (0 : Nat)).trace
        = [Event.execCall "S" 0]) :=
  ⟨by decide,
   c3_zero_delay_never_retries "S"
     (fun i _ => if i = 0 then Except.error 5 else Except.ok 9) none 1 0 5
     (by decide)⟩

/-- C4: a step with `attempts = 3, delayMs = 10` whose action always fails
has the action invoked exactly 3 times with exactly two waits in between,
after which the third error is raised and the forward pass terminates (the
following step is never started: its events are absent from the trace). -/
theorem c4_retry_exhaustion {V E : Type} (n m : String)
    (f g : Nat → V → Except E V) (err : Nat → E) (undef : V)
    (hf : ∀ i, f i undef = Except.error (err i)) :
    (Transaction.run
      { tasks :=
        [{ name := n, execute := f, retry := some ⟨3, 10⟩ },
         { name := m, execute := g }] } undef).result
      = Except.error (err 2) ∧
    execEvents (Transaction.run
      { tasks :=
        [{ name := n, execute := f, retry := some ⟨3, 10⟩ },
         { name := m, execute := g }] } undef).trace
      = [Event.execCall n undef, Event.execCall n undef,
         Event.execCall n undef] ∧
    waitEvents (Transaction.run
      { tasks :=
        [{ name := n, execute := f, retry := some ⟨3, 10⟩ },
         { name := m, execute := g }] } undef).trace
      = [Event.wait 10, Event.wait 10] := by
  refine ⟨?_, ?_, ?_⟩ <;>
    simp [Transaction.run, forwardRun, runSteps, retryLoop, attemptsOf,
      retryDelay, callOnStart, callOnSuccess, callOnError, rollbackAll, hf,
      execEvents, waitEvents]

/-- Witness for `c4_retry_exhaustion` at a concrete input. -/
theorem c4_retry_exhaustion_witness :
    (∀ i, (fun (i : Nat) (_ : Nat) => (Except.error (100 + i) : Except Nat Nat)) i 0
        = Except.error (100 + i)) ∧
    ((Transaction.run
      { tasks :=
        [{ name := "S",
           execute := fun (i : Nat) (_ : Nat) =>
             (Except.error (100 + i) : Except Nat Nat),
           retry := some ⟨3, 10⟩ },
         { name := "T", execute := fun _ c => Except.ok c }] } (0 : Nat)).result
       = Except.error (100 + 2) ∧
     execEvents (Transaction.run
      { tasks :=
        [{ name := "S",
           execute := fun (i : Nat) (_ : Nat) =>
             (Except.error (100 + i) : Except Nat Nat),
           retry := some ⟨3, 10⟩ },
         { name := "T", execute := fun _ c => Except.ok c }] } (0 : Nat)).trace
       = [Event.execCall "S" 0, Event.execCall "S" 0, Event.execCall "S" 0] ∧
     waitEvents (Transaction.run
      { tasks :=
        [{ name := "S",
           execute := fun (i : Nat) (_ : Nat) =>
             (Except.error (100 + i) : Except Nat Nat),
           retry := some ⟨3, 10⟩ },
         { name := "T", execute := fun _ c => Except.ok c }] } (0 : Nat)).trace
       = [Event.wait 10, Event.wait 10]) :=
  ⟨fun _ => rfl,
   c4_retry_exhaustion "S" "T"
     (fun i _ => Except.error (100 + i)) (fun _ c => Except.ok c)
     (fun i => 100 + i) 0 (fun _ => rfl)⟩

/-- C9: a step with `attempts = 3` (and a nonzero retry delay, without which
this code never reaches a second attempt) whose action fails twice and then
succeeds on the third invocation hands the third call's result to the next
step, and the `onError` call site is never reached for any step of the run. -/
theorem c9_retry_success {V E : Type} (n m : String)
    (f g : Nat → V → Except E V) (e0 e1 : E) (r out : V) (d : Nat)
    (undef : V) (hd : d ≠ 0)
    (hf0 : f 0 undef = Except.error e0) (hf1 : f 1 undef = Except.error e1)
    (hf2 : f 2 undef = Except.ok r) (hg : g 0 r = Except.ok out) :
    (Transaction.run
      { tasks :=
        [{ name := n, execute := f, retry := some ⟨3, d⟩ },
         { name := m, execute := g }] } undef).result = Except.ok out ∧
    errEvents (Transaction.run
      { tasks :=
        [{ name := n, execute := f, retry := some ⟨3, d⟩ },
         { name := m, execute := g }] } undef).trace = [] := by
  constructor <;>
    simp [Transaction.run, forwardRun, runSteps, retryLoop, attemptsOf,
      retryDelay, callOnStart, callOnSuccess, callOnError, rollbackAll,
      hf0, hf1, hf2, hg, hd, errEvents]

/-- Witness for `c9_retry_success` at a concrete input. -/
theorem c9_retry_success_witness :
    ((2 : Nat) ≠ 0 ∧
     (fun (i : Nat) (_ : Nat) =>
        if i = 2 then (Except.ok 7 : Except Nat Nat) else Except.error i) 0 0
       = Except.error 0) ∧
    ((Transaction.run
      { tasks :=
        [{ name := "S",
           execute := fun (i : Nat) (_ : Nat) =>
             if i = 2 then (Except.ok 7 : Except Nat Nat) else Except.error i,
           retry := some ⟨3, 2⟩ },
         { name := "T",
           execute := fun (_ c : Nat) => Except.ok (c + 1) }] } (0 : Nat)).result
       = Except.ok (7 + 1) ∧
     errEvents (Transaction.run
      { tasks :=
        [{ name := "S",
           execute := fun (i : Nat) (_ : Nat) =>
             if i = 2 then (Except.ok 7 : Except Nat Nat) else Except.error i,
           retry := some ⟨3, 2⟩ },
         { name := "T",
           execute := fun (_ c : Nat) => Except.ok (c + 1) }] } (0 : Nat)).trace
       = []) :=
  ⟨⟨by decide, by decide⟩,
   c9_retry_success "S" "T"
     (fun i _ => if i = 2 then Except.ok 7 else Except.error i)
     (fun _ c => Except.ok (c + 1)) 0 1 7 (7 + 1) 2 0 (by decide)
     (by decide) (by decide) (by decide) (by decide)⟩

end Airem

namespace Airem

/-- C6: the context recorded in a history entry is the context as passed
*into* the step, not the result it produced.  For the spec's concrete
scenario `[fetch, process, always_fail]` (no retries): the history records
`fetch` with the initial context and `process` with `fetch`'s output; during
rollback `process`'s compensation is invoked with `fetch`'s output `v1`,
`fetch`'s compensation with the initial context, and the caller receives the
triggering error. -/
theorem c6_pre_execution_context {V E : Type}
    (ff fp fz : Nat → V → Except E V) (rf rp : V → E → Except E Unit)
    (v1 v2 : V) (e : E) (undef : V)
    (h1 : ff 0 undef = Except.ok v1) (h2 : fp 0 v1 = Except.ok v2)
    (h3 : fz 0 v2 = Except.error e) :
    (forwardRun { tasks := [{ name := "fetch", execute := ff,
                              rollback := some rf },
                            { name := "process", execute := fp,
                              rollback := some rp },
                            { name := "always_fail", execute := fz }] }
        undef).history
      = [("fetch", undef), ("process", v1)] ∧
    (Transaction.run { tasks := [{ name := "fetch", execute := ff,
                                   rollback := some rf },
                                 { name := "process", execute := fp,
                                   rollback := some rp },
                                 { name := "always_fail", execute := fz }] }
        undef).result = Except.error e ∧
    compEvents (Transaction.run { tasks := [{ name := "fetch", execute := ff,
                                              rollback := some rf },
                                            { name := "process",
                                              execute := fp,
                                              rollback := some rp },
                                            { name := "always_fail",
                                              execute := fz }] }
        undef).trace
      = [Event.stepRollback "process" v1 e,
         Event.stepRollback "fetch" undef e] := by
  refine ⟨?_, ?_, ?_⟩ <;>
    cases hrp : rp v1 e <;> cases hrf : rf undef e <;>
      simp [Transaction.run, forwardRun, runSteps, retryLoop, attemptsOf,
        retryDelay, callOnStart, callOnSuccess, callOnError, rollbackAll,
        rollbackOne, stepRollbackOf, h1, h2, h3, hrp, hrf, compEvents]

/-- Witness for `c6_pre_execution_context` at a concrete input. -/
theorem c6_pre_execution_context_witness :
    ((fun (_ : Nat) (_ : Option Nat) => Except.ok (some 1)) 0 none
        = (Except.ok (some 1) : Except String (Option Nat)) ∧
     (fun (_ : Nat) (c : Option Nat) => Except.ok (c.map (· + 1))) 0 (some 1)
        = (Except.ok (some 2) : Except String (Option Nat)) ∧
     (fun (_ : Nat) (_ : Option Nat) =>
        (Except.error "E" : Except String (Option Nat))) 0 (some 2)
        = Except.error "E") ∧
    ((forwardRun
      { tasks :=
        [{ name := "fetch",
           execute := fun (_ : Nat) (_ : Option Nat) =>
             (Except.ok (some 1) : Except String (Option Nat)),
           rollback := some (fun _ _ => Except.ok ()) },
         { name := "process",
           execute := fun (_ : Nat) (c : Option Nat) =>
             Except.ok (c.map (· + 1)),
           rollback := some (fun _ _ => Except.ok ()) },
         { name := "always_fail",
           execute := fun (_ : Nat) (_ : Option Nat) =>
             (Except.error "E" : Except String (Option Nat)) }] }
        (none : Option Nat)).history
      = [("fetch", none), ("process", some 1)] ∧
     (Transaction.run
      { tasks :=
        [{ name := "fetch",
           execute := fun (_ : Nat) (_ : Option Nat) =>
             (Except.ok (some 1) : Except String (Option Nat)),
           rollback := some (fun _ _ => Except.ok ()) },
         { name := "process",
           execute := fun (_ : Nat) (c : Option Nat) =>
             Except.ok (c.map (· + 1)),
           rollback := some (fun _ _ => Except.ok ()) },
         { name := "always_fail",
           execute := fun (_ : Nat) (_ : Option Nat) =>
             (Except.error "E" : Except String (Option Nat)) }] }
        (none : Option Nat)).result = Except.error "E" ∧
     compEvents (Transaction.run
      { tasks :=
        [{ name := "fetch",
           execute := fun (_ : Nat) (_ : Option Nat) =>
             (Except.ok (some 1) : Except String (Option Nat)),
           rollback := some (fun _ _ => Except.ok ()) },
         { name := "process",
           execute := fun (_ : Nat) (c : Option Nat) =>
             Except.ok (c.map (· + 1)),
           rollback := some (fun _ _ => Except.ok ()) },
         { name := "always_fail",
           execute := fun (_ : Nat) (_ : Option Nat) =>
             (Except.error "E" : Except String (Option Nat)) }] }
        (none : Option Nat)).trace
      = [Event.stepRollback "process" (some 1) "E",
         Event.stepRollback "fetch" none "E"]) :=
  ⟨⟨rfl, rfl, rfl⟩,
   c6_pre_execution_context
     (fun _ _ => Except.ok (some 1))
     (fun _ c => Except.ok (c.map (· + 1)))
     (fun _ _ => Except.error "E")
     (fun _ _ => Except.ok ()) (fun _ _ => Except.ok ())
     (some 1) (some 2) "E" none rfl rfl rfl⟩

/-- C7: for `[A, B, C]` with all actions succeeding, the `onStart` and
`onSuccess` observers fire in order A, B, C, and `run` returns the final
context: C's action applied to B's output, which is B's action applied to
A's output from the initial context. -/
theorem c7_ordering {V E : Type} (fa fb fc : Nat → V → Except E V)
    (os : String → V → Except E Unit) (osu : String → V → V → Except E Unit)
    (oe : Option (String → V → E → Except E Unit)) (a b c : V) (undef : V)
    (hsA : os "A" undef = Except.ok ()) (hsuA : osu "A" undef a = Except.ok ())
    (hsB : os "B" a = Except.ok ()) (hsuB : osu "B" a b = Except.ok ())
    (hsC : os "C" b = Except.ok ()) (hsuC : osu "C" b c = Except.ok ())
    (ha : fa 0 undef = Except.ok a) (hb : fb 0 a = Except.ok b)
    (hc : fc 0 b = Except.ok c) :
    (Transaction.run { tasks := [{ name := "A", execute := fa },
                                 { name := "B", execute := fb },
                                 { name := "C", execute := fc }],
                       stepEvents := { onStart := some os,
                                       onSuccess := some osu,
                                       onError := oe } } undef).result
      = Except.ok c ∧
    obsEvents (Transaction.run { tasks := [{ name := "A", execute := fa },
                                           { name := "B", execute := fb },
                                           { name := "C", execute := fc }],
                                 stepEvents := { onStart := some os,
                                                 onSuccess := some osu,
                                                 onError := oe } }
        undef).trace
      = [Event.start "A" undef, Event.success "A" undef a,
         Event.start "B" a, Event.success "B" a b,
         Event.start "C" b, Event.success "C" b c] := by
  constructor <;>
    simp [Transaction.run, forwardRun, runSteps, retryLoop, attemptsOf,
      retryDelay, callOnStart, callOnSuccess, callOnError, rollbackAll,
      hsA, hsuA, hsB, hsuB, hsC, hsuC, ha, hb, hc, obsEvents]

/-- Witness for `c7_ordering` at a concrete input. -/
theorem c7_ordering_witness :
    ((fun (_ : String) (_ : Nat) => (Except.ok () : Except Nat Unit)) "A" 0
       = Except.ok () ∧
     (fun (_ : String) (_ _ : Nat) =>
        (Except.ok () : Except Nat Unit)) "C" 2 3 = Except.ok () ∧
     (fun (_ : Nat) (c : Nat) => (Except.ok (c + 1) : Except Nat Nat)) 0 2
       = Except.ok 3) ∧
    ((Transaction.run
      { tasks :=
        [{ name := "A",
           execute := fun (_ c : Nat) => (Except.ok (c + 1) : Except Nat Nat) },
         { name := "B",
           execute := fun (_ c : Nat) => (Except.ok (c + 1) : Except Nat Nat) },
         { name := "C",
           execute := fun (_ c : Nat) => (Except.ok (c + 1) : Except Nat Nat) }],
        stepEvents :=
          { onStart := some (fun _ _ => Except.ok ()),
            onSuccess := some (fun _ _ _ => Except.ok ()),
            onError := none } } (0 : Nat)).result = Except.ok 3 ∧
     obsEvents (Transaction.run
      { tasks :=
        [{ name := "A",
           execute := fun (_ c : Nat) => (Except.ok (c + 1) : Except Nat Nat) },
         { name := "B",
           execute := fun (_ c : Nat) => (Except.ok (c + 1) : Except Nat Nat) },
         { name := "C",
           execute := fun (_ c : Nat) => (Except.ok (c + 1) : Except Nat Nat) }],
        stepEvents :=
          { onStart := some (fun _ _ => Except.ok ()),
            onSuccess := some (fun _ _ _ => Except.ok ()),
            onError := none } } (0 : Nat)).trace
      = [Event.start "A" 0, Event.success "A" 0 1,
         Event.start "B" 1, Event.success "B" 1 2,
         Event.start "C" 2, Event.success "C" 2 3]) :=
  ⟨⟨rfl, rfl, rfl⟩,
   c7_ordering
     (fun _ c => Except.ok (c + 1)) (fun _ c => Except.ok (c + 1))
     (fun _ c => Except.ok (c + 1))
     (fun _ _ => Except.ok ()) (fun _ _ _ => Except.ok ()) none
     1 2 3 0 rfl rfl rfl rfl rfl rfl rfl rfl rfl⟩

/-- C10: when a step's action succeeds but the `onSuccess` observer then
throws (here: terminally, with no retry configured), the step is *not*
appended to the rollback history — the push happens only after `onSuccess`
returns — so the ensuing rollback (which does run, for the preceding
successful step) never invokes that step's own rollback, even though its
action completed. -/
theorem c10_onsuccess_throw_not_appended {V E : Type}
    (fp fs : Nat → V → Except E V) (rp rs : V → E → Except E Unit)
    (osu : String → V → V → Except E Unit) (p r : V) (e : E) (undef : V)
    (hp : fp 0 undef = Except.ok p) (hsuP : osu "P" undef p = Except.ok ())
    (hs : fs 0 p = Except.ok r) (hsuS : osu "S" p r = Except.error e) :
    (forwardRun { tasks := [{ name := "P", execute := fp,
                              rollback := some rp },
                            { name := "S", execute := fs,
                              rollback := some rs }],
                  stepEvents := { onSuccess := some osu } } undef).history
      = [("P", undef)] ∧
    (Transaction.run { tasks := [{ name := "P", execute := fp,
                                   rollback := some rp },
                                 { name := "S", execute := fs,
                                   rollback := some rs }],
                       stepEvents := { onSuccess := some osu } }
        undef).result = Except.error e ∧
    compEvents (Transaction.run { tasks := [{ name := "P", execute := fp,
                                              rollback := some rp },
                                            { name := "S", execute := fs,
                                              rollback := some rs }],
                                  stepEvents := { onSuccess := some osu } }
        undef).trace
      = [Event.stepRollback "P" undef e] := by
  refine ⟨?_, ?_, ?_⟩ <;>
    cases hrp : rp undef e <;>
      simp [Transaction.run, forwardRun, runSteps, retryLoop, attemptsOf,
        retryDelay, callOnStart, callOnSuccess, callOnError, rollbackAll,
        rollbackOne, stepRollbackOf, hp, hsuP, hs, hsuS, hrp, compEvents]

/-- Witness for `c10_onsuccess_throw_not_appended` at a concrete input. -/
theorem c10_onsuccess_throw_not_appended_witness :
    ((fun (_ : Nat) (c : Nat) => (Except.ok (c + 1) : Except Nat Nat)) 0 0
       = Except.ok 1 ∧
     (fun (n : String) (_ _ : Nat) =>
        if n = "S" then (Except.error 9 : Except Nat Unit)
        else Except.ok ()) "S" 1 2 = Except.error 9) ∧
    ((forwardRun
      { tasks :=
        [{ name := "P",
           execute := fun (_ c : Nat) => (Except.ok (c + 1) : Except Nat Nat),
           rollback := some (fun _ _ => Except.ok ()) },
         { name := "S",
           execute := fun (_ c : Nat) => (Except.ok (c + 1) : Except Nat Nat),
           rollback := some (fun _ _ => Except.ok ()) }],
        stepEvents := { onSuccess := some (fun (n : String) (_ _ : Nat) =>
          if n = "S" then (Except.error 9 : Except Nat Unit)
          else Except.ok ()) } } (0 : Nat)).history = [("P", 0)] ∧
     (Transaction.run
      { tasks :=
        [{ name := "P",
           execute := fun (_ c : Nat) => (Except.ok (c + 1) : Except Nat Nat),
           rollback := some (fun _ _ => Except.ok ()) },
         { name := "S",
           execute := fun (_ c : Nat) => (Except.ok (c + 1) : Except Nat Nat),
           rollback := some (fun _ _ => Except.ok ()) }],
        stepEvents := { onSuccess := some (fun (n : String) (_ _ : Nat) =>
          if n = "S" then (Except.error 9 : Except Nat Unit)
          else Except.ok ()) } } (0 : Nat)).result = Except.error 9 ∧
     compEvents (Transaction.run
      { tasks :=
        [{ name := "P",
           execute := fun (_ c : Nat) => (Except.ok (c + 1) : Except Nat Nat),
           rollback := some (fun _ _ => Except.ok ()) },
         { name := "S",
           execute := fun (_ c : Nat) => (Except.ok (c + 1) : Except Nat Nat),
           rollback := some (fun _ _ => Except.ok ()) }],
        stepEvents := { onSuccess := some (fun (n : String) (_ _ : Nat) =>
          if n = "S" then (Except.error 9 : Except Nat Unit)
          else Except.ok ()) } } (0 : Nat)).trace
      = [Event.stepRollback "P" 0 9]) :=
  ⟨⟨rfl, by decide⟩,
   c10_onsuccess_throw_not_appended
     (fun _ c => Except.ok (c + 1)) (fun _ c => Except.ok (c + 1))
     (fun _ _ => Except.ok ()) (fun _ _ => Except.ok ())
     (fun n _ r =>
       if n = "S" then (Except.error 9 : Except Nat Unit) else Except.ok ())
     1 2 9 0 rfl (by decide) rfl (by decide)⟩

end Airem

namespace Airem

/-- C8, as stated, is false on the code: in `obsRetryTxn` the `onSuccess`
observer throws (it returns `Except.error 7` on the first attempt's result
`0`, and the trace shows that invocation happened), yet the run does not
abort — the throw is caught by the retry `catch`, the step is retried, and
the run completes with `Except.ok 1` and no rollback. -/
theorem c8_counterexample :
    callOnSuccess obsRetryTxn.stepEvents.onSuccess "S" 0 0 = Except.error 7 ∧
    (obsRetryTxn.run 0).trace
      = [Event.start "S" 0, Event.execCall "S" 0, Event.success "S" 0 0,
         Event.wait 1, Event.execCall "S" 0, Event.success "S" 0 1] ∧
    (obsRetryTxn.run 0).result = Except.ok 1 := by
  refine ⟨rfl, rfl, rfl⟩

/-- C8 (amended): an observer throw aborts the run with the observer's error
as the triggering error *except* when it is an `onSuccess` throw with
attempts and a nonzero delay remaining, in which case the step is retried
like a failed attempt.  Concretely: (i) an `onStart` throw at a later step
aborts and enters rollback (the previous step's compensation receives the
observer's error); (ii) an `onSuccess` throw on a step without retries
aborts with the observer's error; (iii) an `onError` throw replaces the
step's error as the error the caller sees. -/
theorem c8_observer_throw {V E : Type}
    (fp fq : Nat → V → Except E V) (rp : V → E → Except E Unit)
    (os : String → V → Except E Unit) (p : V) (e1 : E) (undef : V)
    (hp : fp 0 undef = Except.ok p) (hosP : os "P" undef = Except.ok ())
    (hosQ : os "Q" p = Except.error e1)
    (fs : Nat → V → Except E V) (osu : String → V → V → Except E Unit)
    (r : V) (e2 : E)
    (hs : fs 0 undef = Except.ok r) (hosu : osu "S" undef r = Except.error e2)
    (ft : Nat → V → Except E V) (oe : String → V → E → Except E Unit)
    (e3 e4 : E)
    (ht : ft 0 undef = Except.error e3)
    (hoe : oe "T" undef e3 = Except.error e4) :
    ((Transaction.run { tasks := [{ name := "P", execute := fp,
                                    rollback := some rp },
                                  { name := "Q", execute := fq }],
                        stepEvents := { onStart := some os } }
        undef).result = Except.error e1 ∧
     compEvents (Transaction.run { tasks := [{ name := "P", execute := fp,
                                               rollback := some rp },
                                             { name := "Q", execute := fq }],
                                   stepEvents := { onStart := some os } }
        undef).trace = [Event.stepRollback "P" undef e1]) ∧
    (Transaction.run { tasks := [{ name := "S", execute := fs }],
                       stepEvents := { onSuccess := some osu } }
        undef).result = Except.error e2 ∧
    (Transaction.run { tasks := [{ name := "T", execute := ft }],
                       stepEvents := { onError := some oe } }
        undef).result = Except.error e4 := by
  refine ⟨⟨?_, ?_⟩, ?_, ?_⟩
  · simp [Transaction.run, forwardRun, runSteps, retryLoop, attemptsOf,
      retryDelay, callOnStart, callOnSuccess, callOnError, rollbackAll,
      hp, hosP, hosQ]
  · cases hrp : rp undef e1 <;>
      simp [Transaction.run, forwardRun, runSteps, retryLoop, attemptsOf,
        retryDelay, callOnStart, callOnSuccess, callOnError, rollbackAll,
        rollbackOne, stepRollbackOf, hp, hosP, hosQ, hrp, compEvents]
  · simp [Transaction.run, forwardRun, runSteps, retryLoop, attemptsOf,
      retryDelay, callOnStart, callOnSuccess, callOnError, rollbackAll,
      hs, hosu]
  · simp [Transaction.run, forwardRun, runSteps, retryLoop, attemptsOf,
      retryDelay, callOnStart, callOnSuccess, callOnError, rollbackAll,
      ht, hoe]

/-- Witness for `c8_observer_throw` at a concrete input. -/
theorem c8_observer_throw_witness :
    ((fun (n : String) (_ : Nat) =>
        if n = "Q" then (Except.error 21 : Except Nat Unit)
        else Except.ok ()) "P" 0 = Except.ok () ∧
     (fun (n : String) (_ : Nat) =>
        if n = "Q" then (Except.error 21 : Except Nat Unit)
        else Except.ok ()) "Q" 1 = Except.error 21 ∧
     (fun (_ : String) (_ _ : Nat) =>
        (Except.error 22 : Except Nat Unit)) "S" 0 1 = Except.error 22 ∧
     (fun (_ : String) (_ _ : Nat) =>
        (Except.error 24 : Except Nat Unit)) "T" 0 23 = Except.error 24) ∧
    (((Transaction.run
      { tasks := [{ name := "P",
                    execute := fun (_ c : Nat) =>
                      (Except.ok (c + 1) : Except Nat Nat),
                    rollback := some (fun _ _ => Except.ok ()) },
                  { name := "Q",
                    execute := fun (_ c : Nat) =>
                      (Except.ok (c + 1) : Except Nat Nat) }],
        stepEvents := { onStart := some (fun (n : String) (_ : Nat) =>
          if n = "Q" then (Except.error 21 : Except Nat Unit)
          else Except.ok ()) } } (0 : Nat)).result = Except.error 21 ∧
      compEvents (Transaction.run
      { tasks := [{ name := "P",
                    execute := fun (_ c : Nat) =>
                      (Except.ok (c + 1) : Except Nat Nat),
                    rollback := some (fun _ _ => Except.ok ()) },
                  { name := "Q",
                    execute := fun (_ c : Nat) =>
                      (Except.ok (c + 1) : Except Nat Nat) }],
        stepEvents := { onStart := some (fun (n : String) (_ : Nat) =>
          if n = "Q" then (Except.error 21 : Except Nat Unit)
          else Except.ok ()) } } (0 : Nat)).trace
        = [Event.stepRollback "P" 0 21]) ∧
     (Transaction.run
      { tasks := [{ name := "S",
                    execute := fun (_ c : Nat) =>
                      (Except.ok (c + 1) : Except Nat Nat) }],
        stepEvents := { onSuccess := some (fun (_ : String) (_ _ : Nat) =>
          (Except.error 22 : Except Nat Unit)) } }
        (0 : Nat)).result = Except.error 22 ∧
     (Transaction.run
      { tasks := [{ name := "T",
                    execute := fun (_ _ : Nat) =>
                      (Except.error 23 : Except Nat Nat) }],
        stepEvents := { onError := some (fun (_ : String) (_ _ : Nat) =>
          (Except.error 24 : Except Nat Unit)) } }
        (0 : Nat)).result = Except.error 24) :=
  ⟨⟨by decide, by decide, rfl, rfl⟩,
   c8_observer_throw
     (fun _ c => Except.ok (c + 1)) (fun _ c => Except.ok (c + 1))
     (fun _ _ => Except.ok ())
     (fun n _ =>
       if n = "Q" then (Except.error 21 : Except Nat Unit) else Except.ok ())
     1 21 0 rfl (by decide) (by decide)
     (fun _ c => Except.ok (c + 1)) (fun _ _ _ => Except.error 22) 1 22
     rfl rfl
     (fun _ _ => Except.error 23) (fun _ _ _ => Except.error 24) 23 24
     rfl rfl⟩


end Airem

namespace Airem

theorem compEvents_forwardRun {V E : Type} (t : Transaction V E) (undef : V) :
    compEvents (forwardRun t undef).trace = [] :=
  compEvents_runSteps t.stepEvents t.tasks undef []

/-- C2: whenever the forward pass fails with error `e`, the caller observes
exactly `e` — no compensation outcome replaces or merges with it — and every
history entry's declared step-specific compensation, and the global
compensation when set, is still invoked (its invocation event is in the
trace) no matter which compensations throw. -/
theorem c2_original_error_isolation {V E : Type} (t : Transaction V E)
    (undef : V) (e : E)
    (h : (forwardRun t undef).result = Except.error e) :
    (t.run undef).result = Except.error e ∧
    (∀ p ∈ (forwardRun t undef).history, ∀ rb : V → E → Except E Unit,
       stepRollbackOf t.tasks p.1 = some rb →
       Event.stepRollback p.1 p.2 e ∈ (t.run undef).trace) ∧
    (∀ p ∈ (forwardRun t undef).history, ∀ g : V → E → Except E Unit,
       t.globalRollback = some g →
       Event.globalRollback p.1 p.2 e ∈ (t.run undef).trace) := by
  have hrun := run_error t undef e h
  rw [hrun]
  refine ⟨rfl, ?_, ?_⟩
  · intro p hp rb hrb
    exact List.mem_append.2 (Or.inr (mem_rollbackAll_step hp hrb))
  · intro p hp g hg
    rw [hg]
    exact List.mem_append.2 (Or.inr (mem_rollbackAll_global hp))

/-- Witness for `c2_original_error_isolation` at a concrete input: step A's
compensation and the global compensation both throw, B triggers rollback
with error 7; the caller still sees error 7 and A's compensations are still
invoked. -/
theorem c2_original_error_isolation_witness :
    (forwardRun
      { tasks := [{ name := "A",
                    execute := fun (_ c : Nat) =>
                      (Except.ok (c + 1) : Except Nat Nat),
                    rollback := some (fun _ _ => Except.error 99) },
                  { name := "B",
                    execute := fun (_ _ : Nat) =>
                      (Except.error 7 : Except Nat Nat) }],
        globalRollback := some (fun _ _ => Except.error 98) }
      (0 : Nat)).result = Except.error 7 ∧
    ((Transaction.run
      { tasks := [{ name := "A",
                    execute := fun (_ c : Nat) =>
                      (Except.ok (c + 1) : Except Nat Nat),
                    rollback := some (fun _ _ => Except.error 99) },
                  { name := "B",
                    execute := fun (_ _ : Nat) =>
                      (Except.error 7 : Except Nat Nat) }],
        globalRollback := some (fun _ _ => Except.error 98) }
      (0 : Nat)).result = Except.error 7 ∧
    (∀ p ∈ (forwardRun
      { tasks := [{ name := "A",
                    execute := fun (_ c : Nat) =>
                      (Except.ok (c + 1) : Except Nat Nat),
                    rollback := some (fun _ _ => Except.error 99) },
                  { name := "B",
                    execute := fun (_ _ : Nat) =>
                      (Except.error 7 : Except Nat Nat) }],
        globalRollback := some (fun _ _ => Except.error 98) }
      (0 : Nat)).history, ∀ rb : Nat → Nat → Except Nat Unit,
       stepRollbackOf
        [{ name := "A",
           execute := fun (_ c : Nat) =>
             (Except.ok (c + 1) : Except Nat Nat),
           rollback := some (fun _ _ => Except.error 99) },
         { name := "B",
           execute := fun (_ _ : Nat) =>
             (Except.error 7 : Except Nat Nat) }] p.1 = some rb →
       Event.stepRollback p.1 p.2 7 ∈ (Transaction.run
      { tasks := [{ name := "A",
                    execute := fun (_ c : Nat) =>
                      (Except.ok (c + 1) : Except Nat Nat),
                    rollback := some (fun _ _ => Except.error 99) },
                  { name := "B",
                    execute := fun (_ _ : Nat) =>
                      (Except.error 7 : Except Nat Nat) }],
        globalRollback := some (fun _ _ => Except.error 98) }
      (0 : Nat)).trace) ∧
    (∀ p ∈ (forwardRun
      { tasks := [{ name := "A",
                    execute := fun (_ c : Nat) =>
                      (Except.ok (c + 1) : Except Nat Nat),
                    rollback := some (fun _ _ => Except.error 99) },
                  { name := "B",
                    execute := fun (_ _ : Nat) =>
                      (Except.error 7 : Except Nat Nat) }],
        globalRollback := some (fun _ _ => Except.error 98) }
      (0 : Nat)).history, ∀ g : Nat → Nat → Except Nat Unit,
       (({ tasks := [{ name := "A",
                        execute := fun (_ c : Nat) =>
                          (Except.ok (c + 1) : Except Nat Nat),
                        rollback := some (fun _ _ => Except.error 99) },
                      { name := "B",
                        execute := fun (_ _ : Nat) =>
                          (Except.error 7 : Except Nat Nat) }],
            globalRollback := some (fun _ _ => Except.error 98) } :
          Transaction Nat Nat)).globalRollback = some g →
       Event.globalRollback p.1 p.2 7 ∈ (Transaction.run
      { tasks := [{ name := "A",
                    execute := fun (_ c : Nat) =>
                      (Except.ok (c + 1) : Except Nat Nat),
                    rollback := some (fun _ _ => Except.error 99) },
                  { name := "B",
                    execute := fun (_ _ : Nat) =>
                      (Except.error 7 : Except Nat Nat) }],
        globalRollback := some (fun _ _ => Except.error 98) }
      (0 : Nat)).trace)) :=
  ⟨by decide,
   c2_original_error_isolation
     { tasks := [{ name := "A",
                   execute := fun (_ c : Nat) =>
                     (Except.ok (c + 1) : Except Nat Nat),
                   rollback := some (fun _ _ => Except.error 99) },
                 { name := "B",
                   execute := fun (_ _ : Nat) =>
                     (Except.error 7 : Except Nat Nat) }],
       globalRollback := some (fun _ _ => Except.error 98) }
     0 7 (by decide)⟩

/-- C5: whenever the forward pass fails with error `e`, the rollback
invocations in the run's trace are exactly, per history record from the last
back to the first, the expected block `invBlock`: the step-specific
compensation of the first-match-by-name step definition when declared, then
the global compensation when set, unconditionally — both called with the
recorded pre-step context and the triggering error. -/
theorem c5_step_then_global_compensation {V E : Type} (t : Transaction V E)
    (undef : V) (e : E)
    (h : (forwardRun t undef).result = Except.error e) :
    compEvents (t.run undef).trace
      = ((forwardRun t undef).history.reverse.map
          (invBlock t.tasks t.globalRollback e)).flatten := by
  have hrun := run_error t undef e h
  rw [hrun]
  show compEvents ((forwardRun t undef).trace ++
    rollbackAll t.tasks t.globalRollback e (forwardRun t undef).history) = _
  rw [compEvents_append, compEvents_forwardRun, compEvents_rollbackAll]
  rfl

/-- Witness for `c5_step_then_global_compensation` at a concrete input: one
successful step with a (throwing) step compensation plus a (throwing) global
compensation; the rollback block still lists the step-specific invocation
first, then the global one, with the same context/error pair. -/
theorem c5_step_then_global_compensation_witness :
    (forwardRun
      { tasks := [{ name := "A",
                    execute := fun (_ c : Nat) =>
                      (Except.ok (c + 1) : Except Nat Nat),
                    rollback := some (fun _ _ => Except.error 99) },
                  { name := "B",
                    execute := fun (_ _ : Nat) =>
                      (Except.error 7 : Except Nat Nat) }],
        globalRollback := some (fun _ _ => Except.error 98) }
      (0 : Nat)).result = Except.error 7 ∧
    compEvents (Transaction.run
      { tasks := [{ name := "A",
                    execute := fun (_ c : Nat) =>
                      (Except.ok (c + 1) : Except Nat Nat),
                    rollback := some (fun _ _ => Except.error 99) },
                  { name := "B",
                    execute := fun (_ _ : Nat) =>
                      (Except.error 7 : Except Nat Nat) }],
        globalRollback := some (fun _ _ => Except.error 98) }
      (0 : Nat)).trace
      = ((forwardRun
      { tasks := [{ name := "A",
                    execute := fun (_ c : Nat) =>
                      (Except.ok (c + 1) : Except Nat Nat),
                    rollback := some (fun _ _ => Except.error 99) },
                  { name := "B",
                    execute := fun (_ _ : Nat) =>
                      (Except.error 7 : Except Nat Nat) }],
        globalRollback := some (fun _ _ => Except.error 98) }
      (0 : Nat)).history.reverse.map
          (invBlock
            [{ name := "A",
               execute := fun (_ c : Nat) =>
                 (Except.ok (c + 1) : Except Nat Nat),
               rollback := some (fun _ _ => Except.error 99) },
             { name := "B",
               execute := fun (_ _ : Nat) =>
                 (Except.error 7 : Except Nat Nat) }]
            (some (fun _ _ => Except.error 98)) 7)).flatten :=
  ⟨by decide,
   c5_step_then_global_compensation
     { tasks := [{ name := "A",
                   execute := fun (_ c : Nat) =>
                     (Except.ok (c + 1) : Except Nat Nat),
                   rollback := some (fun _ _ => Except.error 99) },
                 { name := "B",
                   execute := fun (_ _ : Nat) =>
                     (Except.error 7 : Except Nat Nat) }],
       globalRollback := some (fun _ _ => Except.error 98) }
     0 7 (by decide)⟩

end Airem

namespace Airem

/-- C1: in any run where the steps `pre` all succeed (producing history
`hist`) and the next step `sk` then fails terminally (its retry loop ends in
a throw of `e`), the caller sees `e`; the history names are exactly the
successful steps' names in order; the rollback invocations are exactly the
per-record blocks for `hist` processed in reverse (step k−1 down to step 1);
`sk` has no history entry; and no rollback invocation — step-specific or
global — ever names `sk`: the failed step's own compensation is never
invoked for its own failure. -/
theorem c1_rollback_reverse_of_successes {V E : Type} (t : Transaction V E)
    (undef : V) (pre : List (TransactionStep V E)) (sk : TransactionStep V E)
    (rest : List (TransactionStep V E)) (hist : List (String × V)) (ck : V)
    (trk : List (Event V E)) (e : E)
    (htasks : t.tasks = pre ++ sk :: rest)
    (hpre : RunsOk t.stepEvents undef pre hist ck)
    (hstart : callOnStart t.stepEvents.onStart sk.name ck = Except.ok ())
    (hfail : retryLoop t.stepEvents.onSuccess t.stepEvents.onError sk.name
        sk.execute sk.retry ck 0 (attemptsOf sk) = (trk, LoopOutcome.thrown e))
    (hname : sk.name ∉ pre.map (fun s => s.name)) :
    (t.run undef).result = Except.error e ∧
    hist.map Prod.fst = pre.map (fun s => s.name) ∧
    compEvents (t.run undef).trace
      = (hist.reverse.map (invBlock t.tasks t.globalRollback e)).flatten ∧
    sk.name ∉ hist.map Prod.fst ∧
    (∀ ev ∈ compEvents (t.run undef).trace,
       rollbackStepName ev ≠ some sk.name) := by
  obtain ⟨hh, hr⟩ := runSteps_prefix hpre (sk :: rest) []
  simp only [List.nil_append] at hh hr
  have htail : runSteps t.stepEvents (sk :: rest) ck hist
      = ⟨Event.start sk.name ck :: trk, hist, Except.error e⟩ := by
    simp [runSteps, hstart, hfail]
  have hfwd_hist : (forwardRun t undef).history = hist := by
    show (runSteps t.stepEvents t.tasks undef []).history = hist
    rw [htasks, hh, htail]
  have hfwd_res : (forwardRun t undef).result = Except.error e := by
    show (runSteps t.stepEvents t.tasks undef []).result = Except.error e
    rw [htasks, hr, htail]
  have hrun := run_error t undef e hfwd_res
  have hceq : compEvents (t.run undef).trace
      = (hist.reverse.map (invBlock t.tasks t.globalRollback e)).flatten := by
    rw [hrun]
    show compEvents ((forwardRun t undef).trace ++
      rollbackAll t.tasks t.globalRollback e (forwardRun t undef).history) = _
    rw [compEvents_append, compEvents_forwardRun, compEvents_rollbackAll,
      hfwd_hist]
    rfl
  refine ⟨by rw [hrun], runsOk_names hpre, hceq, ?_, ?_⟩
  · rw [runsOk_names hpre]
    exact hname
  · intro ev hev
    rw [hceq] at hev
    obtain ⟨l, hl, hevl⟩ := List.mem_flatten.1 hev
    obtain ⟨p, hp, rfl⟩ := List.mem_map.1 hl
    rw [invBlock_name t.tasks t.globalRollback e p ev hevl]
    intro hcontra
    apply hname
    have hmem : p.1 ∈ hist.map Prod.fst :=
      List.mem_map_of_mem Prod.fst (List.mem_reverse.1 hp)
    rw [runsOk_names hpre] at hmem
    have hpn : p.1 = sk.name := by injection hcontra
    rw [hpn] at hmem
    exact hmem

/-- Witness for `c1_rollback_reverse_of_successes` at a concrete input:
steps A and B succeed, C fails; the rollback invocations are B's then A's,
and no rollback names C. -/
theorem c1_rollback_reverse_of_successes_witness :
    (Transaction.run
      { tasks := [{ name := "A",
                    execute := fun (_ c : Nat) =>
                      (Except.ok (c + 1) : Except Nat Nat),
                    rollback := some (fun _ _ => Except.ok ()) },
                  { name := "B",
                    execute := fun (_ c : Nat) =>
                      (Except.ok (c + 1) : Except Nat Nat),
                    rollback := some (fun _ _ => Except.ok ()) },
                  { name := "C",
                    execute := fun (_ _ : Nat) =>
                      (Except.error 7 : Except Nat Nat) }] }
      (0 : Nat)).result = Except.error 7 ∧
    ([("A", 0), ("B", 1)] : List (String × Nat)).map Prod.fst
      = ["A", "B"] ∧
    compEvents (Transaction.run
      { tasks := [{ name := "A",
                    execute := fun (_ c : Nat) =>
                      (Except.ok (c + 1) : Except Nat Nat),
                    rollback := some (fun _ _ => Except.ok ()) },
                  { name := "B",
                    execute := fun (_ c : Nat) =>
                      (Except.ok (c + 1) : Except Nat Nat),
                    rollback := some (fun _ _ => Except.ok ()) },
                  { name := "C",
                    execute := fun (_ _ : Nat) =>
                      (Except.error 7 : Except Nat Nat) }] }
      (0 : Nat)).trace
      = [Event.stepRollback "B" 1 7, Event.stepRollback "A" 0 7] ∧
    "C" ∉ (["A", "B"] : List String) ∧
    (∀ ev ∈ compEvents (Transaction.run
      { tasks := [{ name := "A",
                    execute := fun (_ c : Nat) =>
                      (Except.ok (c + 1) : Except Nat Nat),
                    rollback := some (fun _ _ => Except.ok ()) },
                  { name := "B",
                    execute := fun (_ c : Nat) =>
                      (Except.ok (c + 1) : Except Nat Nat),
                    rollback := some (fun _ _ => Except.ok ()) },
                  { name := "C",
                    execute := fun (_ _ : Nat) =>
                      (Except.error 7 : Except Nat Nat) }] }
      (0 : Nat)).trace,
       rollbackStepName ev ≠ some "C") :=
  c1_rollback_reverse_of_successes
    { tasks := [{ name := "A",
                  execute := fun (_ c : Nat) =>
                    (Except.ok (c + 1) : Except Nat Nat),
                  rollback := some (fun _ _ => Except.ok ()) },
                { name := "B",
                  execute := fun (_ c : Nat) =>
                    (Except.ok (c + 1) : Except Nat Nat),
                  rollback := some (fun _ _ => Except.ok ()) },
                { name := "C",
                  execute := fun (_ _ : Nat) =>
                    (Except.error 7 : Except Nat Nat) }] }
    0
    [{ name := "A",
       execute := fun (_ c : Nat) => (Except.ok (c + 1) : Except Nat Nat),
       rollback := some (fun _ _ => Except.ok ()) },
     { name := "B",
       execute := fun (_ c : Nat) => (Except.ok (c + 1) : Except Nat Nat),
       rollback := some (fun _ _ => Except.ok ()) }]
    { name := "C",
      execute := fun (_ _ : Nat) => (Except.error 7 : Except Nat Nat) }
    [] [("A", 0), ("B", 1)] 2
    [Event.execCall "C" 2, Event.errorEv "C" 2 7] 7
    rfl
    (RunsOk.cons
      { name := "A",
        execute := fun (_ c : Nat) => (Except.ok (c + 1) : Except Nat Nat),
        rollback := some (fun _ _ => Except.ok ()) }
      0 1 2
      [{ name := "B",
         execute := fun (_ c : Nat) => (Except.ok (c + 1) : Except Nat Nat),
         rollback := some (fun _ _ => Except.ok ()) }]
      [("B", 1)]
      [Event.execCall "A" 0, Event.success "A" 0 1]
      rfl rfl
      (RunsOk.cons
        { name := "B",
          execute := fun (_ c : Nat) => (Except.ok (c + 1) : Except Nat Nat),
          rollback := some (fun _ _ => Except.ok ()) }
        1 2 2 [] []
        [Event.execCall "B" 1, Event.success "B" 1 2]
        rfl rfl
        (RunsOk.nil 2)))
    rfl rfl (by decide)

end Airem
